import Mathlib

/-!
Verification of the `failchain` error-chaining library (src/src/lib.rs).

The library wraps an `ErrorKind` value together with an optional causal
predecessor and an optional backtrace into an `Error` container, offers the
`chain_err` / `chain_inspect_err` combinators on `Result`, and the `bail` /
`ensure` early-return helpers.

The embedding below translates the library's two error containers
(`UnboxedError`, `BoxedError`), their `kind` / `cause` / `backtrace` /
`Display` implementations, the `ResultExt` combinators, and the two macros.
The external `failure` crate (the `Fail` trait, `Context`, `Backtrace`) is a
dependency that is not part of this repository; it is modelled from its
documented behaviour, which the spec also records: a failure value exposes a
display string, an optional direct cause and an optional backtrace;
`Context::new(kind)` holds a kind with no cause and an ambient backtrace
capture; `fail.context(kind)` holds `kind` with the original failure as cause.
All error kinds are drawn from a single type `κ`; `Display` of a kind is
modelled by an explicit function `κ → String`.
-/

namespace Failchain

/-- Opaque token standing for a captured backtrace; its content is out of
scope, only its presence and identity matter. -/
structure Backtrace where
  token : Nat
deriving DecidableEq

/-- Model of a value implementing the failure crate's `Fail` capability, as
used by this library: either an opaque lower-level failure (e.g. an I/O
error), carrying its display text and optional backtrace and no cause, or a
context-shaped failure (a `Context`, `UnboxedError` or `BoxedError` viewed
through the `Fail` trait), carrying a kind, an optional cause and an optional
backtrace. -/
inductive Fail (κ : Type) : Type where
  | base (displayText : String) (bt : Option Backtrace) : Fail κ
  | ofContext (kind : κ) (causes : Option (Fail κ)) (bt : Option Backtrace) : Fail κ

/-- `Fail::cause`: the optional direct causal predecessor. -/
def Fail.cause {κ : Type} : Fail κ → Option (Fail κ)
  | .base _ _ => none
  | .ofContext _ c _ => c

/-- `Fail::backtrace`. -/
def Fail.backtrace {κ : Type} : Fail κ → Option Backtrace
  | .base _ b => b
  | .ofContext _ _ b => b

/-- `Display` for a failure value: an opaque failure shows its own text, a
context-shaped failure shows its kind's message (`disp` is the kind's
`Display`). -/
def Fail.display {κ : Type} (disp : κ → String) : Fail κ → String
  | .base t _ => t
  | .ofContext k _ _ => disp k

/-- Model of `failure::Context<ErrorKindT>`: the kind (the crate names the
field `context`), the optional wrapped failure, and the backtrace captured at
construction, if any. -/
structure Context (κ : Type) where
  context : κ
  causeField : Option (Fail κ)
  captured : Option Backtrace

/-- `Context::get_context`: the stored kind. -/
def Context.get_context {κ : Type} (c : Context κ) : κ := c.context

/-- `Context::cause`: the wrapped failure, if the context was built from one. -/
def Context.cause {κ : Type} (c : Context κ) : Option (Fail κ) := c.causeField

/-- `Context::backtrace`: the wrapped failure's backtrace when a failure is
stored, otherwise the backtrace captured at construction. -/
def Context.backtrace {κ : Type} (c : Context κ) : Option Backtrace :=
  match c.causeField with
  | some f => f.backtrace
  | none => c.captured

/-- `Context::new(kind)`: no cause; `ambient` models the backtrace capture at
the call site (present or absent depending on the environment). -/
def Context.new {κ : Type} (kind : κ) (ambient : Option Backtrace) : Context κ :=
  ⟨kind, none, ambient⟩

/-- `Fail::context(self, kind)`: wraps `self` as the cause of a new context
carrying `kind`. -/
def Fail.context {κ : Type} (f : Fail κ) (kind : κ) : Context κ :=
  ⟨kind, some f, none⟩

/-- `Display` for `Context`: the kind's message only. -/
def Context.display {κ : Type} (disp : κ → String) (c : Context κ) : String :=
  disp c.context

/-- A context viewed through the `Fail` trait (used when it becomes another
error's cause): it exposes its `get_context` kind, its `cause()` and its
`backtrace()`. -/
def Context.toFail {κ : Type} (c : Context κ) : Fail κ :=
  .ofContext c.context c.cause c.backtrace

/-- `UnboxedError<ErrorKindT>`: stores its `Context` inline
(src/src/lib.rs lines 116-119). -/
structure UnboxedError (κ : Type) where
  inner : Context κ

/-- `BoxedError<ErrorKindT>`: stores its `Context` behind a `Box`
(src/src/lib.rs lines 125-128); the indirection has no semantic content in
the embedding. -/
structure BoxedError (κ : Type) where
  inner : Context κ

/-- `UnboxedError::kind` (lines 130-134). -/
def UnboxedError.kind {κ : Type} (e : UnboxedError κ) : κ := e.inner.get_context

/-- `Fail::cause` for `UnboxedError` (lines 245-248). -/
def UnboxedError.cause {κ : Type} (e : UnboxedError κ) : Option (Fail κ) := e.inner.cause

/-- `Fail::backtrace` for `UnboxedError` (lines 250-252). -/
def UnboxedError.backtrace {κ : Type} (e : UnboxedError κ) : Option Backtrace :=
  e.inner.backtrace

/-- `Display` for `UnboxedError` (lines 255-259): delegates to the inner
context. -/
def UnboxedError.display {κ : Type} (disp : κ → String) (e : UnboxedError κ) : String :=
  e.inner.display disp

/-- `From<Context<ErrorKindT>> for UnboxedError` (lines 267-271). -/
def UnboxedError.from_context {κ : Type} (c : Context κ) : UnboxedError κ := ⟨c⟩

/-- `From<ErrorKindT> for UnboxedError` (lines 261-265): via `Context::new`. -/
def UnboxedError.from_kind {κ : Type} (kind : κ) (ambient : Option Backtrace) :
    UnboxedError κ :=
  UnboxedError.from_context (Context.new kind ambient)

/-- `UnboxedError` viewed through the `Fail` trait. -/
def UnboxedError.toFail {κ : Type} (e : UnboxedError κ) : Fail κ := e.inner.toFail

/-- `BoxedError::kind` (lines 273-277). -/
def BoxedError.kind {κ : Type} (e : BoxedError κ) : κ := e.inner.get_context

/-- `Fail::cause` for `BoxedError` (lines 279-282). -/
def BoxedError.cause {κ : Type} (e : BoxedError κ) : Option (Fail κ) := e.inner.cause

/-- `Fail::backtrace` for `BoxedError` (lines 284-286). -/
def BoxedError.backtrace {κ : Type} (e : BoxedError κ) : Option Backtrace :=
  e.inner.backtrace

/-- `Display` for `BoxedError` (lines 289-293): delegates to the inner
context. -/
def BoxedError.display {κ : Type} (disp : κ → String) (e : BoxedError κ) : String :=
  e.inner.display disp

/-- `From<Context<ErrorKindT>> for BoxedError` (lines 301-307). -/
def BoxedError.from_context {κ : Type} (c : Context κ) : BoxedError κ := ⟨c⟩

/-- `From<ErrorKindT> for BoxedError` (lines 295-299): via `Context::new`. -/
def BoxedError.from_kind {κ : Type} (kind : κ) (ambient : Option Backtrace) :
    BoxedError κ :=
  BoxedError.from_context (Context.new kind ambient)

/-- `BoxedError` viewed through the `Fail` trait. -/
def BoxedError.toFail {κ : Type} (e : BoxedError κ) : Fail κ := e.inner.toFail

/-- Rust's `Result<T, E>`. -/
inductive Result (α ε : Type) : Type where
  | ok (value : α) : Result α ε
  | err (error : ε) : Result α ε

/-- `Result::map_err`. -/
def Result.map_err {α ε ε₂ : Type} (f : ε → ε₂) : Result α ε → Result α ε₂
  | .ok v => .ok v
  | .err e => .err (f e)

/-- `ResultExt::chain_inspect_err` (src/src/lib.rs lines 162-171):
`self.map_err(|mut initial_error| { let kind = chain(&mut initial_error);
initial_error.context(kind).into() })`. The callback receives a mutable view
of the original error, modelled as returning the kind together with the
possibly mutated error; `into` models the `From<Context<ErrorKindT>>`
conversion selected by `ChainErrorKind::Error`. -/
def chain_inspect_err {κ α E : Type} (into : Context κ → E)
    (r : Result α (Fail κ)) (chain : Fail κ → κ × Fail κ) : Result α E :=
  r.map_err (fun initial_error =>
    let p := chain initial_error
    into (Fail.context p.2 p.1))

/-- `ResultExt::chain_err` (lines 144-149): `self.chain_inspect_err(|_| map())`;
the callback ignores the error (no inspection, no mutation). -/
def chain_err {κ α E : Type} (into : Context κ → E)
    (r : Result α (Fail κ)) (map : Unit → κ) : Result α E :=
  chain_inspect_err into r (fun e => (map (), e))

/-- The method names declared by the `ResultExt` extension trait
(src/src/lib.rs lines 137-156): exactly `chain_err` and
`chain_inspect_err`. -/
def ResultExt.methodNames : List String := ["chain_err", "chain_inspect_err"]

/-- `bail!($e)` (src/src/lib.rs lines 187-192): `return Err($e.into())`.
`intoErr` models the `From<ErrorKindT>` conversion into the function's error
type; the early return is the produced `Result`. -/
def bail {κ α ε : Type} (intoErr : κ → ε) (e : κ) : Result α ε :=
  .err (intoErr e)

/-- `bail!($kind, $fmt)` (lines 193-195):
`return Err($kind(($fmt).to_owned()).into())`. -/
def bail_fmt {κ α ε : Type} (intoErr : κ → ε) (kind : String → κ) (fmt : String) :
    Result α ε :=
  .err (intoErr (kind fmt))

/-- `bail!($kind, $fmt, $args)` (lines 196-198):
`return Err($kind(format!($fmt, $args)).into())`; `formatted` stands for the
interpolated output of `format!`, which is host-language sugar. -/
def bail_fmt_args {κ α ε : Type} (intoErr : κ → ε) (kind : String → κ)
    (formatted : String) : Result α ε :=
  .err (intoErr (kind formatted))

/-- `ensure!($cond, $e)` (src/src/lib.rs lines 238-242):
`if !($cond) { bail!($e) }`. The condition expression may have side effects,
so it is modelled as a state transformer `σ → Bool × σ`; the macro evaluates
it exactly once and tests the resulting boolean. `Result.ok ()` models
execution continuing past the macro. -/
def ensure {κ σ ε : Type} (intoErr : κ → ε) (cond : σ → Bool × σ) (e : κ)
    (s : σ) : Result Unit ε × σ :=
  let p := cond s
  (if p.1 then .ok () else bail intoErr e, p.2)

/-- `ensure!($cond, $kind, $fmt, $args)` (lines 223-227):
`if !($cond) { bail!($kind, $fmt, $args) }`. -/
def ensure_fmt_args {κ σ ε : Type} (intoErr : κ → ε) (cond : σ → Bool × σ)
    (kind : String → κ) (formatted : String) (s : σ) : Result Unit ε × σ :=
  let p := cond s
  (if p.1 then .ok () else bail_fmt_args intoErr kind formatted, p.2)

/-- The causal chain hanging off a failure: repeatedly follow `cause()` until
it is absent (the outermost failure itself is not listed). -/
def Fail.causeList {κ : Type} : Fail κ → List (Fail κ)
  | .base _ _ => []
  | .ofContext _ none _ => []
  | .ofContext _ (some c) _ => c :: c.causeList

/-- The kinds seen when walking the chain from the outermost failure inward;
an opaque base failure contributes no kind. -/
def Fail.visitedKinds {κ : Type} : Fail κ → List κ
  | .base _ _ => []
  | .ofContext k none _ => [k]
  | .ofContext k (some c) _ => k :: c.visitedKinds

/-- `chain_err` applied once per kind in `ks`, left to right, each step
re-wrapping the previous step's `BoxedError` (viewed as a `Fail`) as the new
cause — the repeated re-wrapping pattern of the library's intended use. -/
def chain_many {κ α : Type} (r : Result α (Fail κ)) : List κ → Result α (Fail κ)
  | [] => r
  | k :: ks =>
      chain_many
        ((chain_err BoxedError.from_context r (fun _ => k)).map_err BoxedError.toFail) ks

/-- Walking `chain_many` from any starting failure: each kind adds one link to
the causal chain, and the kinds are visited outermost-first, i.e. in reverse
application order, before the starting failure's own kinds. -/
theorem chain_many_err_spec {κ α : Type} (ks : List κ) (e : Fail κ) :
    ∃ f : Fail κ,
      chain_many (Result.err e : Result α (Fail κ)) ks = Result.err f
        ∧ f.causeList.length = ks.length + e.causeList.length
        ∧ f.visitedKinds = ks.reverse ++ e.visitedKinds := by
  induction ks generalizing e with
  | nil => exact ⟨e, rfl, by simp, by simp⟩
  | cons k ks ih =>
      obtain ⟨f, hf, hlen, hkinds⟩ := ih (Fail.ofContext k (some e) (Fail.backtrace e))
      refine ⟨f, hf, ?_, ?_⟩
      · simp only [Fail.causeList, List.length_cons] at hlen
        simp only [List.length_cons]
        omega
      · simp only [Fail.visitedKinds] at hkinds
        simp [hkinds]

/-- Claim C1: constructing an Error from a cause and a kind, as
`chain_inspect_err` (and `chain_err`, which is its special case) does with a
callback whose kind output on the failure at hand is `k`, yields an Error
whose `kind()` accessor returns `k`, for both container forms. -/
theorem chained_error_kind_eq {κ α : Type} (k : κ) (c : Fail κ)
    (chain : Fail κ → κ × Fail κ) (h : (chain c).1 = k) :
    (∃ b : BoxedError κ,
        chain_inspect_err BoxedError.from_context (Result.err c : Result α (Fail κ)) chain
            = Result.err b ∧ b.kind = k)
    ∧ ∃ u : UnboxedError κ,
        chain_inspect_err UnboxedError.from_context (Result.err c : Result α (Fail κ)) chain
            = Result.err u ∧ u.kind = k :=
  ⟨⟨_, rfl, h⟩, ⟨_, rfl, h⟩⟩

/-- Witness for C1: chaining a concrete I/O failure with kind "wrapped". -/
theorem chained_error_kind_eq_witness :
    ((fun e : Fail String => ("wrapped", e)) (Fail.base "io failure" none)).1 = "wrapped"
    ∧ ((∃ b : BoxedError String,
          chain_inspect_err BoxedError.from_context
              (Result.err (Fail.base "io failure" none) : Result Unit (Fail String))
              (fun e => ("wrapped", e))
            = Result.err b ∧ b.kind = "wrapped")
        ∧ ∃ u : UnboxedError String,
            chain_inspect_err UnboxedError.from_context
                (Result.err (Fail.base "io failure" none) : Result Unit (Fail String))
                (fun e => ("wrapped", e))
              = Result.err u ∧ u.kind = "wrapped") :=
  ⟨rfl, chained_error_kind_eq "wrapped" (Fail.base "io failure" none)
      (fun e => ("wrapped", e)) rfl⟩

/-- Claim C2: an Error built from a failing Result by `chain_err` or
`chain_inspect_err` has `cause()` returning the supplied original failure,
while an Error converted directly from an ErrorKind (the `From<ErrorKindT>`
impls, which go through `Context::new`) has `cause()` returning `none`. -/
theorem cause_roundtrip {κ α : Type} (k : κ) (c : Fail κ) (ambient : Option Backtrace) :
    (∃ b : BoxedError κ,
        chain_err BoxedError.from_context (Result.err c : Result α (Fail κ)) (fun _ => k)
            = Result.err b ∧ b.cause = some c)
    ∧ (∃ b : BoxedError κ,
        chain_inspect_err BoxedError.from_context (Result.err c : Result α (Fail κ))
            (fun e => (k, e)) = Result.err b ∧ b.cause = some c)
    ∧ (BoxedError.from_kind k ambient).cause = none
    ∧ (UnboxedError.from_kind k ambient).cause = none :=
  ⟨⟨_, rfl, rfl⟩, ⟨_, rfl, rfl⟩, rfl, rfl⟩

/-- Claim C3: applying `chain_err` N times starting from one original failure
(of depth 1, i.e. with no cause of its own) yields an Error whose cause chain
has length exactly N, the original failure being the deepest entry, and
walking the chain from the outermost Error visits the applied ErrorKinds in
exactly the reverse of their application order. -/
theorem chain_depth_and_reverse_order {κ α : Type} (e0 : Fail κ) (ks : List κ)
    (h : e0.cause = none) :
    ∃ f : Fail κ,
      chain_many (Result.err e0 : Result α (Fail κ)) ks = Result.err f
        ∧ f.causeList.length = ks.length
        ∧ f.visitedKinds = ks.reverse ++ e0.visitedKinds := by
  obtain ⟨f, hf, hlen, hkinds⟩ := chain_many_err_spec ks e0
  have h0 : e0.causeList = [] := by
    cases e0 with
    | base _ _ => rfl
    | ofContext k c bt =>
        cases c with
        | none => rfl
        | some _ => simp [Fail.cause] at h
  refine ⟨f, hf, ?_, hkinds⟩
  simp [h0] at hlen
  exact hlen

/-- Witness for C3: chaining three kinds onto a concrete I/O failure. -/
theorem chain_depth_and_reverse_order_witness :
    (Fail.base "io failure" none : Fail String).cause = none
    ∧ ∃ f : Fail String,
        chain_many (Result.err (Fail.base "io failure" none) : Result Unit (Fail String))
            ["low", "mid", "top"] = Result.err f
          ∧ f.causeList.length = (["low", "mid", "top"] : List String).length
          ∧ f.visitedKinds = (["low", "mid", "top"] : List String).reverse
              ++ (Fail.base "io failure" none : Fail String).visitedKinds :=
  ⟨rfl, chain_depth_and_reverse_order (Fail.base "io failure" none) ["low", "mid", "top"] rfl⟩

/-- Claim C4: `chain_err` and `chain_inspect_err` leave a success value
untouched and unobserved — the result on `ok` does not depend on the callback
at all — and on every failure input they produce a failure output whose cause
linkage keeps the original error (as left by the callback's mutable view);
the embedding is a total function, so no panic path exists. -/
theorem chain_success_untouched_and_total {κ α : Type} :
    (∀ (a : α) (chain : Fail κ → κ × Fail κ),
        chain_inspect_err BoxedError.from_context (Result.ok a : Result α (Fail κ)) chain
          = Result.ok a)
    ∧ (∀ (a : α) (chain₁ chain₂ : Fail κ → κ × Fail κ),
        chain_inspect_err BoxedError.from_context (Result.ok a : Result α (Fail κ)) chain₁
          = chain_inspect_err BoxedError.from_context (Result.ok a : Result α (Fail κ)) chain₂)
    ∧ (∀ (a : α) (map : Unit → κ),
        chain_err BoxedError.from_context (Result.ok a : Result α (Fail κ)) map
          = Result.ok a)
    ∧ (∀ (e : Fail κ) (chain : Fail κ → κ × Fail κ),
        ∃ b : BoxedError κ,
          chain_inspect_err BoxedError.from_context (Result.err e : Result α (Fail κ)) chain
            = Result.err b ∧ b.cause = some (chain e).2)
    ∧ ∀ (e : Fail κ) (map : Unit → κ),
        ∃ b : BoxedError κ,
          chain_err BoxedError.from_context (Result.err e : Result α (Fail κ)) map
            = Result.err b ∧ b.cause = some e :=
  ⟨fun _ _ => rfl, fun _ _ _ => rfl, fun _ _ => rfl,
    fun _ _ => ⟨_, rfl, rfl⟩, fun _ _ => ⟨_, rfl, rfl⟩⟩

/-- Claim C5: `ensure!(cond, kind)` evaluates its condition expression exactly
once — the final state is the state after a single application of the
condition's state transformer, whichever branch is taken — and it continues
normally when the condition is true, while returning an Error whose kind
equals the given kind when the condition is false. -/
theorem ensure_single_eval_and_result {κ σ : Type} (cond : σ → Bool × σ) (k : κ)
    (s : σ) (ambient : Option Backtrace) :
    (ensure (fun kk => BoxedError.from_kind kk ambient) cond k s).2 = (cond s).2
    ∧ (ensure (fun kk => BoxedError.from_kind kk ambient) cond k s).1
        = (if (cond s).1 then Result.ok ()
           else Result.err (BoxedError.from_kind k ambient))
    ∧ (BoxedError.from_kind k ambient).kind = k :=
  ⟨rfl, rfl, rfl⟩

/-- Claim C6: `bail!(kind_ctor, fmt, args...)` returns immediately with an
Error whose kind is `kind_ctor` applied to the interpolated format string
(`formatted` standing for `format!(fmt, args...)`); the two-argument form
agrees with it, and `bail!(kind_expression)` returns a failure built from the
kind converted into the function's Error type. -/
theorem bail_kind_and_format {κ α : Type} (kind_ctor : String → κ) (formatted : String)
    (k : κ) (ambient : Option Backtrace) :
    bail_fmt_args (fun kk => BoxedError.from_kind kk ambient) kind_ctor formatted
        = (Result.err (BoxedError.from_kind (kind_ctor formatted) ambient)
            : Result α (BoxedError κ))
    ∧ (∃ b : BoxedError κ,
        (bail_fmt_args (fun kk => BoxedError.from_kind kk ambient) kind_ctor formatted
            : Result α (BoxedError κ)) = Result.err b ∧ b.kind = kind_ctor formatted)
    ∧ bail_fmt (fun kk => BoxedError.from_kind kk ambient) kind_ctor formatted
        = (bail_fmt_args (fun kk => BoxedError.from_kind kk ambient) kind_ctor formatted
            : Result α (BoxedError κ))
    ∧ bail (fun kk => BoxedError.from_kind kk ambient) k
        = (Result.err (BoxedError.from_kind k ambient) : Result α (BoxedError κ))
    ∧ ∃ b : BoxedError κ,
        (bail (fun kk => BoxedError.from_kind kk ambient) k : Result α (BoxedError κ))
          = Result.err b ∧ b.kind = k :=
  ⟨rfl, ⟨_, rfl, rfl⟩, rfl, rfl, ⟨_, rfl, rfl⟩⟩

/-- Claim C7: built from the same inputs — the same `Context` via the
`From<Context<_>>` impls, or the same kind via the `From<ErrorKindT>` impls —
the inline form `UnboxedError` and the indirect form `BoxedError` expose
identical read semantics: `kind()`, `cause()`, `backtrace()` and `Display`
formatting all agree, as does their whole view through the `Fail` trait. -/
theorem boxed_unboxed_equal_semantics {κ : Type} (c : Context κ) (k : κ)
    (ambient : Option Backtrace) (disp : κ → String) :
    (BoxedError.from_context c).kind = (UnboxedError.from_context c).kind
    ∧ (BoxedError.from_context c).cause = (UnboxedError.from_context c).cause
    ∧ (BoxedError.from_context c).backtrace = (UnboxedError.from_context c).backtrace
    ∧ BoxedError.display disp (BoxedError.from_context c)
        = UnboxedError.display disp (UnboxedError.from_context c)
    ∧ (BoxedError.from_kind k ambient).kind = (UnboxedError.from_kind k ambient).kind
    ∧ (BoxedError.from_kind k ambient).cause = (UnboxedError.from_kind k ambient).cause
    ∧ (BoxedError.from_kind k ambient).backtrace
        = (UnboxedError.from_kind k ambient).backtrace
    ∧ BoxedError.display disp (BoxedError.from_kind k ambient)
        = UnboxedError.display disp (UnboxedError.from_kind k ambient)
    ∧ (BoxedError.from_context c).toFail = (UnboxedError.from_context c).toFail :=
  ⟨rfl, rfl, rfl, rfl, rfl, rfl, rfl, rfl, rfl⟩

/-- Claim C8: `Display` of an Error produces exactly the outermost ErrorKind's
formatted message — it is independent of the cause chain (and of the
backtrace) — and displaying the same Error value twice yields identical
output both times; the display function takes the error read-only, so it
cannot mutate it. -/
theorem display_outermost_and_stable {κ : Type} (disp : κ → String) (k : κ)
    (cause₁ cause₂ : Option (Fail κ)) (bt₁ bt₂ : Option Backtrace)
    (b : BoxedError κ) (u : UnboxedError κ) :
    BoxedError.display disp b = disp b.kind
    ∧ UnboxedError.display disp u = disp u.kind
    ∧ BoxedError.display disp (BoxedError.from_context ⟨k, cause₁, bt₁⟩)
        = BoxedError.display disp (BoxedError.from_context ⟨k, cause₂, bt₂⟩)
    ∧ UnboxedError.display disp (UnboxedError.from_context ⟨k, cause₁, bt₁⟩)
        = UnboxedError.display disp (UnboxedError.from_context ⟨k, cause₂, bt₂⟩)
    ∧ (BoxedError.display disp b, BoxedError.display disp b).1
        = (BoxedError.display disp b, BoxedError.display disp b).2 :=
  ⟨rfl, rfl, rfl, rfl, rfl⟩

/-- Claim C9 counterexample: the `ResultExt` trait (src/src/lib.rs lines
137-156) declares no `replace_err` method — no such combinator exists
anywhere in the library. -/
theorem replace_err_not_provided : ¬ ("replace_err" ∈ ResultExt.methodNames) := by
  decide

/-- Claim C9 (amended): the library provides no `replace_err` combinator; the
only Result combinators are `chain_err` and `chain_inspect_err`, of which
`chain_inspect_err` is the one giving the callback access to the original
failure (through a mutable reference, not by transferred ownership), and it
otherwise behaves like `chain_err`: the original failure becomes the new
Error's cause and the success arm is untouched. -/
theorem resultext_methods_and_inspect {κ α : Type} :
    ResultExt.methodNames = ["chain_err", "chain_inspect_err"]
    ∧ (∀ (a : α) (chain : Fail κ → κ × Fail κ),
        chain_inspect_err BoxedError.from_context (Result.ok a : Result α (Fail κ)) chain
          = Result.ok a)
    ∧ (∀ (e : Fail κ) (chain : Fail κ → κ × Fail κ),
        ∃ b : BoxedError κ,
          chain_inspect_err BoxedError.from_context (Result.err e : Result α (Fail κ)) chain
            = Result.err b ∧ b.cause = some (chain e).2)
    ∧ ∀ (r : Result α (Fail κ)) (map : Unit → κ),
        chain_err BoxedError.from_context r map
          = chain_inspect_err BoxedError.from_context r (fun e => (map (), e)) :=
  ⟨rfl, fun _ _ => rfl, fun _ _ => ⟨_, rfl, rfl⟩, fun _ _ => rfl⟩

/-- Claim C10: `chain_err(map)` returns exactly the same Result as
`chain_inspect_err` applied to the callback that ignores its error argument
and returns `map()` — for every Result input, every callback and every target
Error conversion; on a failure input both give the Error wrapping the
unmodified original as cause of the new kind. -/
theorem chain_err_is_blind_chain_inspect {κ α E : Type} (into : Context κ → E)
    (r : Result α (Fail κ)) (map : Unit → κ) :
    chain_err into r map = chain_inspect_err into r (fun e => (map (), e))
    ∧ ∀ e : Fail κ,
        chain_err into (Result.err e : Result α (Fail κ)) map
          = Result.err (into (Fail.context e (map ()))) :=
  ⟨rfl, fun _ => rfl⟩

end Failchain
